import Mathlib

/-!
# Usage tracker: the DNS query handler of `pkg/usage/server/main.go`

A shallow embedding of the Go program.  The handler `UsageTracker.ServeDNS`
talks to four collaborators (the query codec of package `usage`, the GitHub
client, the Keen event tracker and the DNS response writer).  Each run of a
function is modelled as the list of collaborator calls it makes, in order,
together with the way it ends (normal return or a Go runtime panic).
Every collaborator is called at most once per run, so a collaborator is a
function from the arguments of the call to its result.

Conventions of the embedding:
* a Go `(value, error)` result is an `Except`, so a nil value never comes with a
  nil error, and a nil `error` alone is `none`;
* `usage.ParseV1` and `usage.FormatV1` (package `pkg/usage`) and the library
  functions `net.IP.String` and `net.JoinHostPort` are parameters;
* `log.Printf` lines are recorded in the run like calls, and can be filtered out.
-/

namespace Registrator

/-- Go `error` values, represented by their message. -/
abbrev Error := String

/-! ## Package `usage` (the query codec) -/

namespace usage

/-- Modelled from the spec: the type `usage.ProjectVersion` is declared in package
`pkg/usage`, whose source is not part of `src/`.  `main.go` builds it positionally,
`usage.ProjectVersion{pv.Project, "latest"}`, and reads the field `Project`; the
spec names the second field `version`. -/
structure ProjectVersion where
  Project : String
  Version : String
deriving DecidableEq, Repr

end usage

/-- The two codec functions of package `pkg/usage` that `main.go` calls.  Their
source is not part of `src/`, so they are parameters of the model:
`usage.ParseV1(q)` returns a `*ProjectVersion` or an error and
`usage.FormatV1(pv)` returns a DNS name. -/
structure Codec where
  ParseV1 : String → Except Error usage.ProjectVersion
  FormatV1 : usage.ProjectVersion → String

/-! ## Package `net` -/

namespace net

/-- The Go type `net.IP`: a byte slice. -/
abbrev IP := List Nat

/-- The Go type `net.UDPAddr`. -/
structure UDPAddr where
  IP : IP
  Port : Int
  Zone : String
deriving DecidableEq, Repr

/-- A value of the interface `net.Addr`, as seen by a type assertion to
`*net.UDPAddr`: either a UDP address, or any other dynamic type (a TCP
address, a test double, the nil interface), kept as its network and text. -/
inductive Addr where
  | udp (a : UDPAddr)
  | other (network : String) (text : String)
deriving DecidableEq, Repr

end net

/-! ## Package `dns` (github.com/miekg/dns) -/

namespace dns

/-- The constant `dns.RcodeSuccess`. -/
def RcodeSuccess : Int := 0

/-- The constant `dns.RcodeNameError` (NXDOMAIN). -/
def RcodeNameError : Int := 3

/-- The constant `dns.TypePTR`. -/
def TypePTR : Nat := 12

/-- The Go type `dns.Question`. -/
structure Question where
  Name : String
  Qtype : Nat
  Qclass : Nat
deriving DecidableEq, Repr

/-- The Go type `dns.RR_Header`. -/
structure RR_Header where
  Name : String
  Rrtype : Nat
  Class : Nat
  Ttl : Nat
  Rdlength : Nat
deriving DecidableEq, Repr

/-- The Go type `dns.PTR`. -/
structure PTR where
  Hdr : RR_Header
  Ptr : String
deriving DecidableEq, Repr

/-- The zero value `new(dns.PTR)`. -/
def PTR.new : PTR := ⟨⟨"", 0, 0, 0, 0⟩, ""⟩

/-- A value of the interface `dns.RR`: a pointer record, or a record of any
other type (only its header and raw data are kept). -/
inductive RR where
  | ptr (rr : PTR)
  | other (Hdr : RR_Header) (rdata : List Nat)
deriving DecidableEq, Repr

/-- The header every `dns.RR` exposes through `Header()`. -/
def RR.Header : RR → RR_Header
  | .ptr rr => rr.Hdr
  | .other h _ => h

/-- The Go type `dns.Msg`, with the header fields that `SetReply` and the handler
write (`Id`, `Response`, `RecursionDesired`, `Rcode`) and the question and answer
sections. -/
structure Msg where
  Id : Nat
  Response : Bool
  RecursionDesired : Bool
  Rcode : Int
  Question : List Question
  Answer : List RR
deriving DecidableEq, Repr

/-- The zero value `new(dns.Msg)`. -/
def Msg.new : Msg := ⟨0, false, false, 0, [], []⟩

/-- The library method `(*dns.Msg).SetReply`: copies the id and the
recursion-desired bit of the request, marks the message as a response, sets
the response code to `RcodeSuccess` and, when the request has a question,
copies its first question.  The answer section is left as it is. -/
def Msg.SetReply (m : Msg) (request : Msg) : Msg :=
  let m1 : Msg :=
    { m with Id := request.Id, RecursionDesired := request.RecursionDesired,
             Response := true, Rcode := RcodeSuccess }
  match request.Question with
  | [] => m1
  | q :: _ => { m1 with Question := [q] }

end dns

/-! ## Package `github` (github.com/google/go-github) -/

namespace github

/-- The Go type `github.RepositoryRelease`; `TagName` is a `*string`. -/
structure RepositoryRelease where
  TagName : Option String
deriving DecidableEq, Repr

/-- The part of `*github.Client` the tracker uses:
`Repositories.GetLatestRelease(owner, repo)`. -/
structure Client where
  GetLatestRelease : String → String → Except Error RepositoryRelease

end github

/-! ## `main.go` -/

/-- The Go type `TrackingEvent`: an embedded `usage.ProjectVersion` plus the
client address. -/
structure TrackingEvent where
  ProjectVersion : usage.ProjectVersion
  ClientAddress : String
deriving DecidableEq, Repr

/-- The Go interface `KeenEventTracker`; `none` is a nil error. -/
structure KeenEventTracker where
  AddEvent : String → TrackingEvent → Option Error

/-- The Go type `UsageTracker`. -/
structure UsageTracker where
  keenClient : KeenEventTracker
  githubClient : github.Client
  githubProject : String

/-- The part of the interface `dns.ResponseWriter` the handler uses. -/
structure ResponseWriter where
  RemoteAddr : net.Addr
  WriteMsg : dns.Msg → Option Error

/-- The four `log.Printf` lines of `ServeDNS`, with their arguments. -/
inductive LogLine where
  | errorParsing (q : String) (ip : net.IP) (err : Error)
  | errorFetching (pv : usage.ProjectVersion) (err : Error)
  | errorTracking (event : TrackingEvent) (err : Error)
  | errorWriting (m : dns.Msg) (err : Error)
deriving DecidableEq, Repr

/-- One call made by the handler to a collaborator. -/
inductive Call where
  | ParseV1 (q : String)
  | RemoteAddr
  | GetLatestRelease (owner : String) (repo : String)
  | AddEvent (collection : String) (event : TrackingEvent)
  | WriteMsg (m : dns.Msg)
  | Printf (line : LogLine)
deriving DecidableEq, Repr

/-- The Go runtime panics `ServeDNS` can raise. -/
inductive Panic where
  | indexOutOfRange
  | interfaceConversion
deriving DecidableEq, Repr

/-- One run of the handler: the collaborator calls made, in order, and the
panic that ended the run, if any. -/
structure Run where
  calls : List Call
  panic : Option Panic
deriving DecidableEq, Repr

/-- Method `UsageTracker.Track`: one `AddEvent` call on collection "usage". -/
def UsageTracker.Track (t : UsageTracker) (pv : TrackingEvent) :
    List Call × Option Error :=
  ([Call.AddEvent "usage" pv], t.keenClient.AddEvent "usage" pv)

/-- Method `UsageTracker.GetLatest`: asks the registry for the latest release of
`pv.Project`; fails when the call fails or when the release has a nil `TagName`. -/
def UsageTracker.GetLatest (t : UsageTracker) (pv : usage.ProjectVersion) :
    List Call × Except Error usage.ProjectVersion :=
  let calls := [Call.GetLatestRelease t.githubProject pv.Project]
  match t.githubClient.GetLatestRelease t.githubProject pv.Project with
  | .error err => (calls, .error err)
  | .ok release =>
    match release.TagName with
    | none => (calls, .error "missing TagName")
    | some tag => (calls, .ok ⟨pv.Project, tag⟩)

/-- Function `PtrRecord`. -/
def PtrRecord (c : Codec) (pv : usage.ProjectVersion) : dns.PTR :=
  let latest := c.FormatV1 ⟨pv.Project, "latest"⟩
  let rr := dns.PTR.new
  let rr := { rr with Hdr := ⟨latest, dns.TypePTR, 0, 0, 0⟩ }
  { rr with Ptr := c.FormatV1 pv }

/-- The code after the label `response:` in `ServeDNS`: write the message, log
a write error.  The calls made so far are `pre`. -/
def ServeDNS.response (w : ResponseWriter) (pre : List Call) (m : dns.Msg) : Run :=
  match w.WriteMsg m with
  | some err => ⟨pre ++ [Call.WriteMsg m, Call.Printf (.errorWriting m err)], none⟩
  | none => ⟨pre ++ [Call.WriteMsg m], none⟩

/-- Method `UsageTracker.ServeDNS`.  `ipString` is the library method
`net.IP.String`. -/
def UsageTracker.ServeDNS (c : Codec) (ipString : net.IP → String)
    (t : UsageTracker) (w : ResponseWriter) (r : dns.Msg) : Run :=
  let m := dns.Msg.new.SetReply r
  match r.Question with
  | [] => ⟨[], some .indexOutOfRange⟩
  | q0 :: _ =>
    let q := q0.Name
    match c.ParseV1 q with
    | .error err =>
      match w.RemoteAddr with
      | .udp a =>
        ServeDNS.response w
          [.ParseV1 q, .RemoteAddr, .Printf (.errorParsing q a.IP err)]
          { m with Rcode := dns.RcodeNameError }
      | .other _ _ => ⟨[.ParseV1 q, .RemoteAddr], some .interfaceConversion⟩
    | .ok pv =>
      match t.GetLatest pv with
      | (c1, .error err) =>
        ServeDNS.response w
          ([.ParseV1 q] ++ c1 ++ [.Printf (.errorFetching pv err)])
          { m with Rcode := dns.RcodeNameError }
      | (c1, .ok latest) =>
        let event : TrackingEvent := ⟨pv, ""⟩
        let event : TrackingEvent :=
          match w.RemoteAddr with
          | .udp addr => { event with ClientAddress := ipString addr.IP }
          | .other _ _ => event
        let (c2, err) := t.Track event
        let c3 : List Call :=
          match err with
          | some e => [.Printf (.errorTracking event e)]
          | none => []
        ServeDNS.response w
          ([.ParseV1 q] ++ c1 ++ [.RemoteAddr] ++ c2 ++ c3)
          { m with Answer := m.Answer ++ [dns.RR.ptr (PtrRecord c latest)] }

/-! ## Process start-up: `main` -/

/-- What `main` puts into the `UsageTracker` it serves with: the Keen client
(`WriteKey`, `ProjectID`) wrapped in a batch client with the flush interval, the
GitHub client built from `authClient` (nil, here `none`, for anonymous access),
and the GitHub project. -/
structure TrackerConfig where
  keenWriteKey : String
  keenProjectID : String
  flushInterval : Nat
  authClient : Option String
  githubProject : String
deriving DecidableEq, Repr

/-- The process-level effects of `main`: `dns.ListenAndServe(addr, network, handler)`
and `log.Fatal(msg)`, which ends the process. -/
inductive MainCall where
  | ListenAndServe (addr : String) (network : String) (handler : TrackerConfig)
  | Fatal (msg : String)
deriving DecidableEq, Repr

/-- What `main` reads from its surroundings: `os.Getenv` (empty for an unset
variable), the value of the flag `-flush`, the library function
`net.JoinHostPort`, and the result of `dns.ListenAndServe` (`none` is nil). -/
structure Process where
  Getenv : String → String
  keenFlushInterval : Nat
  JoinHostPort : String → String → String
  ListenAndServe : String → String → TrackerConfig → Option Error

/-- Function `main`, as the list of process-level effects it performs. -/
def main (p : Process) : List MainCall :=
  let keenProject := p.Getenv "KEEN_PROJECT"
  let keenWriteKey := p.Getenv "KEEN_WRITE_KEY"
  let githubProject := p.Getenv "GITHUB_PROJECT"
  let githubToken := p.Getenv "GITHUB_ACCESS_TOKEN"
  let host := p.Getenv "HOST"
  let host := if host = "" then "0.0.0.0" else host
  let port := p.Getenv "PORT"
  let port := if port = "" then "53" else port
  let addr := p.JoinHostPort host port
  if keenProject = "" ∨ keenWriteKey = "" ∨ githubProject = "" then
    [.Fatal "Please set KEEN_PROJECT, KEEN_WRITE_KEY, and GITHUB_PROJECT"]
  else
    let authClient : Option String := if githubToken ≠ "" then some githubToken else none
    let tracker : TrackerConfig :=
      ⟨keenWriteKey, keenProject, p.keenFlushInterval, authClient, githubProject⟩
    match p.ListenAndServe addr "udp" tracker with
    | some err => [.ListenAndServe addr "udp" tracker, .Fatal err]
    | none => [.ListenAndServe addr "udp" tracker]

/-! ## Observations on a run -/

/-- The messages handed to `WriteMsg` during a run, in order. -/
def Run.written (run : Run) : List dns.Msg :=
  run.calls.filterMap fun
    | .WriteMsg m => some m
    | _ => none

/-- The events handed to `AddEvent` (that is, to `Track`) during a run, in order. -/
def Run.tracked (run : Run) : List TrackingEvent :=
  run.calls.filterMap fun
    | .AddEvent _ event => some event
    | _ => none

/-- The `(owner, repo)` pairs the registry was asked about during a run. -/
def Run.resolved (run : Run) : List (String × String) :=
  run.calls.filterMap fun
    | .GetLatestRelease owner repo => some (owner, repo)
    | _ => none

/-- The calls of a run without the log lines: the calls to the codec, the
response writer, the registry and the event tracker. -/
def Run.collaboratorCalls (run : Run) : List Call :=
  run.calls.filter fun
    | .Printf _ => false
    | _ => true

/-- Decoding fails: the first question's name is rejected by `ParseV1`. -/
def decodeFails (c : Codec) (r : dns.Msg) : Prop :=
  ∃ q rest err, r.Question = q :: rest ∧ c.ParseV1 q.Name = .error err

/-- Decoding yields `pv`: the first question's name is accepted by `ParseV1`. -/
def decodesTo (c : Codec) (r : dns.Msg) (pv : usage.ProjectVersion) : Prop :=
  ∃ q rest, r.Question = q :: rest ∧ c.ParseV1 q.Name = .ok pv

/-- Resolving fails: decoding succeeds and `GetLatest` returns an error. -/
def resolveFails (c : Codec) (t : UsageTracker) (r : dns.Msg) : Prop :=
  ∃ pv err, decodesTo c r pv ∧ (t.GetLatest pv).2 = .error err

/-- The tracking event built on the success path: the decoded value, with the
client's IP in string form when the remote address is a UDP address. -/
def eventFor (ipString : net.IP → String) (w : ResponseWriter)
    (pv : usage.ProjectVersion) : TrackingEvent :=
  match w.RemoteAddr with
  | .udp addr => ⟨pv, ipString addr.IP⟩
  | .other _ _ => ⟨pv, ""⟩

/-- The negative reply: the reply to `r` with the name-error code. -/
def negativeReply (r : dns.Msg) : dns.Msg :=
  { dns.Msg.new.SetReply r with Rcode := dns.RcodeNameError }

/-- The positive reply: the reply to `r` with the pointer record for `latest`. -/
def positiveReply (c : Codec) (r : dns.Msg) (latest : usage.ProjectVersion) : dns.Msg :=
  { dns.Msg.new.SetReply r with
    Answer := (dns.Msg.new.SetReply r).Answer ++ [dns.RR.ptr (PtrRecord c latest)] }

/-- The run of `main` ends in `log.Fatal` without `dns.ListenAndServe` having
been called. -/
def abortsBeforeServing (effects : List MainCall) : Prop :=
  ∃ msg, effects = [.Fatal msg]

/-- A required variable is empty or unset. -/
def missingRequired (p : Process) : Prop :=
  p.Getenv "KEEN_PROJECT" = "" ∨ p.Getenv "KEEN_WRITE_KEY" = "" ∨ p.Getenv "GITHUB_PROJECT" = ""

/-! ## Sample collaborators, for evaluating the model on concrete inputs -/

/-- A sample codec: it accepts one name and rejects every other one. -/
def sampleCodec : Codec where
  ParseV1 q :=
    if q = "1-2-0.widget.usage-v1." then .ok ⟨"widget", "1.2.0"⟩ else .error "invalid name"
  FormatV1 pv := pv.Version ++ "." ++ pv.Project ++ ".usage-v1."

/-- A sample rendering of an IP address. -/
def sampleIPString (ip : net.IP) : String :=
  ".".intercalate (ip.map fun b => toString b)

/-- A registry that knows the tag "2.0.0" of project "widget", has a release
without tag for "untagged", a release with an empty tag for "blank", and fails
for every other project. -/
def sampleGithub : github.Client where
  GetLatestRelease _ repo :=
    if repo = "widget" then .ok ⟨some "2.0.0"⟩
    else if repo = "untagged" then .ok ⟨none⟩
    else if repo = "blank" then .ok ⟨some ""⟩
    else .error "404 Not Found"

/-- An event tracker that accepts every event. -/
def keenOk : KeenEventTracker := ⟨fun _ _ => none⟩

/-- An event tracker that rejects every event. -/
def keenDown : KeenEventTracker := ⟨fun _ _ => some "keen unavailable"⟩

/-- A tracker over the sample registry. -/
def sampleTracker (k : KeenEventTracker) : UsageTracker := ⟨k, sampleGithub, "gliderlabs"⟩

/-- A response writer for a UDP client at 10.0.0.7. -/
def udpWriter : ResponseWriter := ⟨.udp ⟨[10, 0, 0, 7], 5353, ""⟩, fun _ => none⟩

/-- A response writer for a TCP client. -/
def tcpWriter : ResponseWriter := ⟨.other "tcp" "10.0.0.7:5353", fun _ => none⟩

/-- A query with one question of the given name. -/
def query (name : String) : dns.Msg := ⟨7, false, true, 0, [⟨name, 12, 1⟩], []⟩

/-- A query whose question section is empty. -/
def emptyQuery : dns.Msg := ⟨7, false, true, 0, [], []⟩

/-- A process environment from a list of variable bindings. -/
def sampleProcess (vars : List (String × String)) : Process where
  Getenv name := (vars.lookup name).getD ""
  keenFlushInterval := 1000000000
  JoinHostPort host port := host ++ ":" ++ port
  ListenAndServe _ _ _ := none

/-! ## The paths through `ServeDNS` -/

theorem getLatest_calls (t : UsageTracker) (pv : usage.ProjectVersion) :
    (t.GetLatest pv).1 = [Call.GetLatestRelease t.githubProject pv.Project] := by
  unfold UsageTracker.GetLatest
  split
  · rfl
  · split <;> rfl

theorem response_panic (w : ResponseWriter) (pre : List Call) (m : dns.Msg) :
    (ServeDNS.response w pre m).panic = none := by
  unfold ServeDNS.response
  split <;> rfl

theorem response_written (w : ResponseWriter) (pre : List Call) (m : dns.Msg) :
    (ServeDNS.response w pre m).written = (Run.mk pre none).written ++ [m] := by
  unfold ServeDNS.response
  split <;> simp [Run.written, List.filterMap_append]

theorem response_tracked (w : ResponseWriter) (pre : List Call) (m : dns.Msg) :
    (ServeDNS.response w pre m).tracked = (Run.mk pre none).tracked := by
  unfold ServeDNS.response
  split <;> simp [Run.tracked, List.filterMap_append]

theorem response_resolved (w : ResponseWriter) (pre : List Call) (m : dns.Msg) :
    (ServeDNS.response w pre m).resolved = (Run.mk pre none).resolved := by
  unfold ServeDNS.response
  split <;> simp [Run.resolved, List.filterMap_append]

theorem response_collaboratorCalls (w : ResponseWriter) (pre : List Call) (m : dns.Msg) :
    (ServeDNS.response w pre m).collaboratorCalls
      = (Run.mk pre none).collaboratorCalls ++ [Call.WriteMsg m] := by
  unfold ServeDNS.response
  split <;> simp [Run.collaboratorCalls, List.filter_append]

/-- Path 0: the question section is empty, indexing `r.Question[0]` panics. -/
theorem serveDNS_no_question (c : Codec) (ipString : net.IP → String) (t : UsageTracker)
    (w : ResponseWriter) (r : dns.Msg) (hq : r.Question = []) :
    t.ServeDNS c ipString w r = ⟨[], some .indexOutOfRange⟩ := by
  simp [UsageTracker.ServeDNS, hq]

/-- Path 1a: decoding fails and the remote address is a UDP address. -/
theorem serveDNS_decode_error_udp (c : Codec) (ipString : net.IP → String)
    (t : UsageTracker) (w : ResponseWriter) (r : dns.Msg) (q : dns.Question)
    (rest : List dns.Question) (err : Error) (a : net.UDPAddr)
    (hq : r.Question = q :: rest) (hp : c.ParseV1 q.Name = .error err)
    (ha : w.RemoteAddr = .udp a) :
    t.ServeDNS c ipString w r
      = ServeDNS.response w
          [.ParseV1 q.Name, .RemoteAddr, .Printf (.errorParsing q.Name a.IP err)]
          (negativeReply r) := by
  simp [UsageTracker.ServeDNS, hq, hp, ha, negativeReply]

/-- Path 1b: decoding fails and the remote address is not a UDP address; the
type assertion in the log statement panics. -/
theorem serveDNS_decode_error_other (c : Codec) (ipString : net.IP → String)
    (t : UsageTracker) (w : ResponseWriter) (r : dns.Msg) (q : dns.Question)
    (rest : List dns.Question) (err : Error) (network text : String)
    (hq : r.Question = q :: rest) (hp : c.ParseV1 q.Name = .error err)
    (ha : w.RemoteAddr = .other network text) :
    t.ServeDNS c ipString w r
      = ⟨[.ParseV1 q.Name, .RemoteAddr], some .interfaceConversion⟩ := by
  simp [UsageTracker.ServeDNS, hq, hp, ha]

/-- Path 2: decoding succeeds and `GetLatest` fails. -/
theorem serveDNS_resolve_error (c : Codec) (ipString : net.IP → String)
    (t : UsageTracker) (w : ResponseWriter) (r : dns.Msg) (q : dns.Question)
    (rest : List dns.Question) (pv : usage.ProjectVersion) (err : Error)
    (hq : r.Question = q :: rest) (hp : c.ParseV1 q.Name = .ok pv)
    (hr : (t.GetLatest pv).2 = .error err) :
    t.ServeDNS c ipString w r
      = ServeDNS.response w
          [.ParseV1 q.Name, .GetLatestRelease t.githubProject pv.Project,
            .Printf (.errorFetching pv err)]
          (negativeReply r) := by
  have h1 := getLatest_calls t pv
  have h2 : t.GetLatest pv = ([.GetLatestRelease t.githubProject pv.Project], .error err) :=
    Prod.ext h1 hr
  simp [UsageTracker.ServeDNS, hq, hp, h2, negativeReply]

/-- Path 3: decoding and `GetLatest` both succeed. -/
theorem serveDNS_success (c : Codec) (ipString : net.IP → String)
    (t : UsageTracker) (w : ResponseWriter) (r : dns.Msg) (q : dns.Question)
    (rest : List dns.Question) (pv latest : usage.ProjectVersion)
    (hq : r.Question = q :: rest) (hp : c.ParseV1 q.Name = .ok pv)
    (hr : (t.GetLatest pv).2 = .ok latest) :
    t.ServeDNS c ipString w r
      = ServeDNS.response w
          ([.ParseV1 q.Name, .GetLatestRelease t.githubProject pv.Project, .RemoteAddr,
            .AddEvent "usage" (eventFor ipString w pv)]
            ++ (match t.keenClient.AddEvent "usage" (eventFor ipString w pv) with
                | some e => [Call.Printf (.errorTracking (eventFor ipString w pv) e)]
                | none => []))
          (positiveReply c r latest) := by
  have h1 := getLatest_calls t pv
  have h2 : t.GetLatest pv = ([.GetLatestRelease t.githubProject pv.Project], .ok latest) :=
    Prod.ext h1 hr
  have h3 : (match w.RemoteAddr with
      | .udp addr => ({ ProjectVersion := pv, ClientAddress := ipString addr.IP } : TrackingEvent)
      | .other _ _ => ⟨pv, ""⟩) = eventFor ipString w pv := rfl
  simp [UsageTracker.ServeDNS, hq, hp, h2, UsageTracker.Track, positiveReply, h3]

/-- Every run hands to `WriteMsg` nothing, or the negative reply, or a positive
reply, and nothing else. -/
theorem serveDNS_written_cases (c : Codec) (ipString : net.IP → String)
    (t : UsageTracker) (w : ResponseWriter) (r : dns.Msg) :
    (t.ServeDNS c ipString w r).written = []
      ∨ (t.ServeDNS c ipString w r).written = [negativeReply r]
      ∨ ∃ latest, (t.ServeDNS c ipString w r).written = [positiveReply c r latest] := by
  cases hq : r.Question with
  | nil => left; rw [serveDNS_no_question c ipString t w r hq]; rfl
  | cons q rest =>
    cases hp : c.ParseV1 q.Name with
    | error err =>
      cases ha : w.RemoteAddr with
      | udp a =>
        right; left
        rw [serveDNS_decode_error_udp c ipString t w r q rest err a hq hp ha, response_written]
        rfl
      | other network text =>
        left
        rw [serveDNS_decode_error_other c ipString t w r q rest err network text hq hp ha]
        rfl
    | ok pv =>
      cases hr : (t.GetLatest pv).2 with
      | error err =>
        right; left
        rw [serveDNS_resolve_error c ipString t w r q rest pv err hq hp hr, response_written]
        rfl
      | ok latest =>
        right; right
        refine ⟨latest, ?_⟩
        rw [serveDNS_success c ipString t w r q rest pv latest hq hp hr, response_written]
        cases t.keenClient.AddEvent "usage" (eventFor ipString w pv) <;> rfl

theorem negativeReply_rcode (r : dns.Msg) : (negativeReply r).Rcode = dns.RcodeNameError := by
  unfold negativeReply dns.Msg.SetReply
  split <;> rfl

theorem negativeReply_answer (r : dns.Msg) : (negativeReply r).Answer = [] := by
  unfold negativeReply dns.Msg.SetReply
  split <;> rfl

theorem positiveReply_rcode (c : Codec) (r : dns.Msg) (latest : usage.ProjectVersion) :
    (positiveReply c r latest).Rcode = dns.RcodeSuccess := by
  unfold positiveReply dns.Msg.SetReply
  split <;> rfl

theorem positiveReply_answer (c : Codec) (r : dns.Msg) (latest : usage.ProjectVersion) :
    (positiveReply c r latest).Answer = [dns.RR.ptr (PtrRecord c latest)] := by
  unfold positiveReply dns.Msg.SetReply
  split <;> rfl

theorem getLatest_ok_of_tag (t : UsageTracker) (pv : usage.ProjectVersion)
    (release : github.RepositoryRelease) (tag : String)
    (hup : t.githubClient.GetLatestRelease t.githubProject pv.Project = .ok release)
    (htag : release.TagName = some tag) :
    (t.GetLatest pv).2 = .ok ⟨pv.Project, tag⟩ := by
  simp [UsageTracker.GetLatest, hup, htag]

/-! ## The claims -/

/-- C1. No tracking without resolution: when decoding the question name fails
or `GetLatest` fails, no event is handed to `Track` (`AddEvent`) during the run. -/
theorem no_tracking_without_resolution (c : Codec) (ipString : net.IP → String)
    (t : UsageTracker) (w : ResponseWriter) (r : dns.Msg)
    (h : decodeFails c r ∨ resolveFails c t r) :
    (t.ServeDNS c ipString w r).tracked = [] := by
  rcases h with ⟨q, rest, err, hq, hp⟩ | ⟨pv, err, ⟨q, rest, hq, hp⟩, hr⟩
  · cases ha : w.RemoteAddr with
    | udp a =>
      rw [serveDNS_decode_error_udp c ipString t w r q rest err a hq hp ha, response_tracked]
      rfl
    | other network text =>
      rw [serveDNS_decode_error_other c ipString t w r q rest err network text hq hp ha]
      rfl
  · rw [serveDNS_resolve_error c ipString t w r q rest pv err hq hp hr, response_tracked]
    rfl

/-- Witness for C1: an undecodable name from a UDP client, and a decodable name
of a project the registry does not know. -/
theorem no_tracking_without_resolution_witness :
    ((sampleTracker keenOk).ServeDNS sampleCodec sampleIPString udpWriter
        (query "nonsense.")).tracked = []
      ∧ decodeFails sampleCodec (query "nonsense.") :=
  ⟨no_tracking_without_resolution sampleCodec sampleIPString (sampleTracker keenOk) udpWriter
      (query "nonsense.") (Or.inl ⟨⟨"nonsense.", 12, 1⟩, [], "invalid name", rfl, rfl⟩),
    ⟨⟨"nonsense.", 12, 1⟩, [], "invalid name", rfl, rfl⟩⟩

/-- C2. Response independence from the tracking outcome: when decoding and
resolving both succeed, the run with event tracker `k1` and the run with event
tracker `k2` (one may fail where the other succeeds), all other inputs equal,
hand the same single message to `WriteMsg`. -/
theorem response_independent_of_tracking (c : Codec) (ipString : net.IP → String)
    (k1 k2 : KeenEventTracker) (gh : github.Client) (project : String)
    (w : ResponseWriter) (r : dns.Msg) (pv latest : usage.ProjectVersion)
    (hd : decodesTo c r pv)
    (hr : (UsageTracker.GetLatest ⟨k1, gh, project⟩ pv).2 = .ok latest) :
    (UsageTracker.ServeDNS c ipString ⟨k1, gh, project⟩ w r).written
        = (UsageTracker.ServeDNS c ipString ⟨k2, gh, project⟩ w r).written
      ∧ ∃ m, (UsageTracker.ServeDNS c ipString ⟨k1, gh, project⟩ w r).written = [m] := by
  obtain ⟨q, rest, hq, hp⟩ := hd
  have hr2 : (UsageTracker.GetLatest ⟨k2, gh, project⟩ pv).2 = .ok latest := hr
  have e1 : (UsageTracker.ServeDNS c ipString ⟨k1, gh, project⟩ w r).written
      = [positiveReply c r latest] := by
    rw [serveDNS_success c ipString ⟨k1, gh, project⟩ w r q rest pv latest hq hp hr,
      response_written]
    cases k1.AddEvent "usage" (eventFor ipString w pv) <;> rfl
  have e2 : (UsageTracker.ServeDNS c ipString ⟨k2, gh, project⟩ w r).written
      = [positiveReply c r latest] := by
    rw [serveDNS_success c ipString ⟨k2, gh, project⟩ w r q rest pv latest hq hp hr2,
      response_written]
    cases k2.AddEvent "usage" (eventFor ipString w pv) <;> rfl
  exact ⟨e1.trans e2.symm, _, e1⟩

/-- Witness for C2: a tracker that rejects every event against one that accepts
every event, on a query that decodes and resolves. -/
theorem response_independent_of_tracking_witness :
    decodesTo sampleCodec (query "1-2-0.widget.usage-v1.") ⟨"widget", "1.2.0"⟩
      ∧ keenDown.AddEvent "usage" ⟨⟨"widget", "1.2.0"⟩, "10.0.0.7"⟩ = some "keen unavailable"
      ∧ keenOk.AddEvent "usage" ⟨⟨"widget", "1.2.0"⟩, "10.0.0.7"⟩ = none
      ∧ ((sampleTracker keenDown).ServeDNS sampleCodec sampleIPString udpWriter
            (query "1-2-0.widget.usage-v1.")).written
          = ((sampleTracker keenOk).ServeDNS sampleCodec sampleIPString udpWriter
            (query "1-2-0.widget.usage-v1.")).written :=
  ⟨⟨_, _, rfl, rfl⟩, rfl, rfl,
    (response_independent_of_tracking sampleCodec sampleIPString keenDown keenOk sampleGithub
      "gliderlabs" udpWriter (query "1-2-0.widget.usage-v1.") ⟨"widget", "1.2.0"⟩
      ⟨"widget", "2.0.0"⟩ ⟨_, _, rfl, rfl⟩ rfl).1⟩

/-- C3. When the question name decodes to `pv` and the registry returns a release
with tag `tag`, `GetLatest` returns the input project with that tag, and the
run hands to `WriteMsg` one message, with the success response code and exactly
one answer record: a pointer record whose owner name is `FormatV1` of
(project, "latest") and whose target is `FormatV1` of (project, tag). -/
theorem success_response (c : Codec) (ipString : net.IP → String)
    (t : UsageTracker) (w : ResponseWriter) (r : dns.Msg) (pv : usage.ProjectVersion)
    (release : github.RepositoryRelease) (tag : String)
    (hd : decodesTo c r pv)
    (hup : t.githubClient.GetLatestRelease t.githubProject pv.Project = .ok release)
    (htag : release.TagName = some tag) :
    (t.GetLatest pv).2 = .ok ⟨pv.Project, tag⟩
      ∧ ∃ m rr, (t.ServeDNS c ipString w r).written = [m]
          ∧ m.Rcode = dns.RcodeSuccess
          ∧ m.Answer = [dns.RR.ptr rr]
          ∧ rr.Hdr.Name = c.FormatV1 ⟨pv.Project, "latest"⟩
          ∧ rr.Ptr = c.FormatV1 ⟨pv.Project, tag⟩ := by
  obtain ⟨q, rest, hq, hp⟩ := hd
  have hr := getLatest_ok_of_tag t pv release tag hup htag
  refine ⟨hr, positiveReply c r ⟨pv.Project, tag⟩, PtrRecord c ⟨pv.Project, tag⟩, ?_,
    positiveReply_rcode c r _, positiveReply_answer c r _, rfl, rfl⟩
  rw [serveDNS_success c ipString t w r q rest pv _ hq hp hr, response_written]
  cases t.keenClient.AddEvent "usage" (eventFor ipString w pv) <;> rfl

/-- Witness for C3: client version 1.2.0 of "widget", registry tag "2.0.0". -/
theorem success_response_witness :
    decodesTo sampleCodec (query "1-2-0.widget.usage-v1.") ⟨"widget", "1.2.0"⟩
      ∧ ∃ m rr, ((sampleTracker keenOk).ServeDNS sampleCodec sampleIPString udpWriter
            (query "1-2-0.widget.usage-v1.")).written = [m]
          ∧ m.Rcode = dns.RcodeSuccess
          ∧ m.Answer = [dns.RR.ptr rr]
          ∧ rr.Hdr.Name = sampleCodec.FormatV1 ⟨"widget", "latest"⟩
          ∧ rr.Ptr = sampleCodec.FormatV1 ⟨"widget", "2.0.0"⟩ :=
  ⟨⟨_, _, rfl, rfl⟩,
    (success_response sampleCodec sampleIPString (sampleTracker keenOk) udpWriter
      (query "1-2-0.widget.usage-v1.") ⟨"widget", "1.2.0"⟩ ⟨some "2.0.0"⟩ "2.0.0"
      ⟨_, _, rfl, rfl⟩ rfl rfl).2⟩

/-- C4. Zero-TTL invariant: the record returned by `PtrRecord` has time-to-live 0
and record type PTR in its header, and every answer record of every message a
run of `ServeDNS` hands to `WriteMsg` has time-to-live 0 and type PTR. -/
theorem zero_ttl_invariant (c : Codec) :
    (∀ pv : usage.ProjectVersion,
        (PtrRecord c pv).Hdr.Ttl = 0 ∧ (PtrRecord c pv).Hdr.Rrtype = dns.TypePTR)
      ∧ ∀ (ipString : net.IP → String) (t : UsageTracker) (w : ResponseWriter) (r : dns.Msg),
          ∀ m ∈ (t.ServeDNS c ipString w r).written, ∀ rr ∈ m.Answer,
            rr.Header.Ttl = 0 ∧ rr.Header.Rrtype = dns.TypePTR := by
  refine ⟨fun pv => ⟨rfl, rfl⟩, ?_⟩
  intro ipString t w r m hm rr hrr
  rcases serveDNS_written_cases c ipString t w r with h | h | ⟨latest, h⟩
  · rw [h] at hm
    exact absurd hm (List.not_mem_nil m)
  · rw [h, List.mem_singleton] at hm
    subst hm
    rw [negativeReply_answer] at hrr
    exact absurd hrr (List.not_mem_nil rr)
  · rw [h, List.mem_singleton] at hm
    subst hm
    rw [positiveReply_answer, List.mem_singleton] at hrr
    subst hrr
    exact ⟨rfl, rfl⟩

/-- Witness for C4: the one answer record of a successful run. -/
theorem zero_ttl_invariant_witness :
    ∃ m rr, m ∈ ((sampleTracker keenOk).ServeDNS sampleCodec sampleIPString udpWriter
          (query "1-2-0.widget.usage-v1.")).written
      ∧ rr ∈ m.Answer ∧ rr.Header.Ttl = 0 ∧ rr.Header.Rrtype = dns.TypePTR :=
  ⟨positiveReply sampleCodec (query "1-2-0.widget.usage-v1.") ⟨"widget", "2.0.0"⟩,
    dns.RR.ptr (PtrRecord sampleCodec ⟨"widget", "2.0.0"⟩),
    List.mem_singleton.mpr rfl, List.mem_singleton.mpr rfl,
    (zero_ttl_invariant sampleCodec).2 sampleIPString (sampleTracker keenOk) udpWriter
      (query "1-2-0.widget.usage-v1.") _ (List.mem_singleton.mpr rfl) _
      (List.mem_singleton.mpr rfl)⟩

/-- What holds of the negative answer on every run: when decoding fails or
`GetLatest` fails, every message the run hands to `WriteMsg` carries
`RcodeNameError` and no answer record, the registry is not consulted when
decoding fails, and the negative reply is written whenever resolving failed or
the remote address is a UDP address.  On a decoding failure from any other
address nothing is written (see `serveDNS_no_negative_answer_on_panic`). -/
theorem negative_answer_where_written (c : Codec) (ipString : net.IP → String)
    (t : UsageTracker) (w : ResponseWriter) (r : dns.Msg)
    (h : decodeFails c r ∨ resolveFails c t r) :
    (∀ m ∈ (t.ServeDNS c ipString w r).written,
        m.Rcode = dns.RcodeNameError ∧ m.Answer = [])
      ∧ (decodeFails c r → (t.ServeDNS c ipString w r).resolved = [])
      ∧ ((resolveFails c t r ∨ ∃ a, w.RemoteAddr = .udp a) →
          (t.ServeDNS c ipString w r).written = [negativeReply r]) := by
  rcases h with ⟨q, rest, err, hq, hp⟩ | ⟨pv, err, ⟨q, rest, hq, hp⟩, hr⟩
  · cases ha : w.RemoteAddr with
    | udp a =>
      have hw : (t.ServeDNS c ipString w r).written = [negativeReply r] := by
        rw [serveDNS_decode_error_udp c ipString t w r q rest err a hq hp ha, response_written]
        rfl
      refine ⟨?_, ?_, fun _ => hw⟩
      · intro m hm
        rw [hw, List.mem_singleton] at hm
        subst hm
        exact ⟨negativeReply_rcode r, negativeReply_answer r⟩
      · intro _
        rw [serveDNS_decode_error_udp c ipString t w r q rest err a hq hp ha, response_resolved]
        rfl
    | other network text =>
      have he := serveDNS_decode_error_other c ipString t w r q rest err network text hq hp ha
      refine ⟨?_, ?_, ?_⟩
      · intro m hm
        rw [he] at hm
        exact absurd hm (List.not_mem_nil m)
      · intro _
        rw [he]
        rfl
      · rintro (⟨pv, e, ⟨q2, rest2, hq2, hp2⟩, _⟩ | ⟨a, ha2⟩)
        · rw [hq] at hq2
          cases hq2
          rw [hp] at hp2
          cases hp2
        · cases ha2
  · have hw : (t.ServeDNS c ipString w r).written = [negativeReply r] := by
      rw [serveDNS_resolve_error c ipString t w r q rest pv err hq hp hr, response_written]
      rfl
    refine ⟨?_, ?_, fun _ => hw⟩
    · intro m hm
      rw [hw, List.mem_singleton] at hm
      subst hm
      exact ⟨negativeReply_rcode r, negativeReply_answer r⟩
    · rintro ⟨q2, rest2, e, hq2, hp2⟩
      rw [hq] at hq2
      cases hq2
      rw [hp] at hp2
      cases hp2

/-- The negative answer at a concrete input: an undecodable name from a UDP
client is answered with the negative reply, without a registry call. -/
theorem negative_answer_where_written_sample :
    decodeFails sampleCodec (query "nonsense.")
      ∧ ((sampleTracker keenOk).ServeDNS sampleCodec sampleIPString udpWriter
          (query "nonsense.")).written = [negativeReply (query "nonsense.")]
      ∧ ((sampleTracker keenOk).ServeDNS sampleCodec sampleIPString udpWriter
          (query "nonsense.")).resolved = [] :=
  have hd : decodeFails sampleCodec (query "nonsense.") :=
    ⟨⟨"nonsense.", 12, 1⟩, [], "invalid name", rfl, rfl⟩
  have h := negative_answer_where_written sampleCodec sampleIPString (sampleTracker keenOk)
    udpWriter (query "nonsense.") (Or.inl hd)
  ⟨hd, h.2.2 (Or.inr ⟨_, rfl⟩), h.2.1 hd⟩

/-- C5, evaluated at the failing input: the name "nonsense." is rejected by the
codec and the client's address is not a UDP address; the run panics in the log
statement of the decode-failure branch and hands no message to `WriteMsg`, so
the query receives no name-error response.  The same query from a UDP client,
and a query whose resolving fails from the non-UDP client, do receive the
negative reply, which has `RcodeNameError` and no answer record. -/
theorem serveDNS_no_negative_answer_on_panic :
    decodeFails sampleCodec (query "nonsense.")
      ∧ ((sampleTracker keenOk).ServeDNS sampleCodec sampleIPString tcpWriter
          (query "nonsense.")).panic = some .interfaceConversion
      ∧ ((sampleTracker keenOk).ServeDNS sampleCodec sampleIPString tcpWriter
          (query "nonsense.")).written = []
      ∧ ((sampleTracker keenOk).ServeDNS sampleCodec sampleIPString udpWriter
          (query "nonsense.")).written = [negativeReply (query "nonsense.")]
      ∧ (UsageTracker.ServeDNS sampleCodec sampleIPString
          ⟨keenOk, ⟨fun _ _ => .error "404 Not Found"⟩, "gliderlabs"⟩ tcpWriter
          (query "1-2-0.widget.usage-v1.")).written
            = [negativeReply (query "1-2-0.widget.usage-v1.")]
      ∧ (negativeReply (query "nonsense.")).Rcode = dns.RcodeNameError
      ∧ (negativeReply (query "nonsense.")).Answer = [] :=
  ⟨⟨⟨"nonsense.", 12, 1⟩, [], "invalid name", rfl, rfl⟩, rfl, rfl, rfl, rfl, rfl, rfl⟩

/-- C6. When decoding and resolving both succeed, exactly one event is handed to
`Track` (one `AddEvent` call, on collection "usage"); its `ProjectVersion` is the
decoded one (the client-reported version, not the resolved one) and its
`ClientAddress` is the string form of the caller's IP when the remote address is
a UDP address, and the empty string otherwise. -/
theorem tracking_event (c : Codec) (ipString : net.IP → String)
    (t : UsageTracker) (w : ResponseWriter) (r : dns.Msg) (pv latest : usage.ProjectVersion)
    (hd : decodesTo c r pv) (hr : (t.GetLatest pv).2 = .ok latest) :
    ∃ event, (t.ServeDNS c ipString w r).tracked = [event]
      ∧ Call.AddEvent "usage" event ∈ (t.ServeDNS c ipString w r).calls
      ∧ event.ProjectVersion = pv
      ∧ (∀ a, w.RemoteAddr = .udp a → event.ClientAddress = ipString a.IP)
      ∧ (∀ network text, w.RemoteAddr = .other network text → event.ClientAddress = "") := by
  obtain ⟨q, rest, hq, hp⟩ := hd
  have hs := serveDNS_success c ipString t w r q rest pv latest hq hp hr
  refine ⟨eventFor ipString w pv, ?_, ?_, ?_, ?_, ?_⟩
  · rw [hs, response_tracked]
    cases t.keenClient.AddEvent "usage" (eventFor ipString w pv) <;> rfl
  · rw [hs]
    unfold ServeDNS.response
    split <;> simp
  · unfold eventFor
    split <;> rfl
  · intro a ha
    simp [eventFor, ha]
  · intro network text ha
    simp [eventFor, ha]

/-- Witness for C6: the client reports 1.2.0 while the registry has 2.0.0; the
event carries 1.2.0 and the client's IP. -/
theorem tracking_event_witness :
    decodesTo sampleCodec (query "1-2-0.widget.usage-v1.") ⟨"widget", "1.2.0"⟩
      ∧ ∃ event, ((sampleTracker keenOk).ServeDNS sampleCodec sampleIPString udpWriter
            (query "1-2-0.widget.usage-v1.")).tracked = [event]
          ∧ event.ProjectVersion = ⟨"widget", "1.2.0"⟩
          ∧ event.ClientAddress = sampleIPString [10, 0, 0, 7] :=
  have hd : decodesTo sampleCodec (query "1-2-0.widget.usage-v1.") ⟨"widget", "1.2.0"⟩ :=
    ⟨_, _, rfl, rfl⟩
  match tracking_event sampleCodec sampleIPString (sampleTracker keenOk) udpWriter
      (query "1-2-0.widget.usage-v1.") ⟨"widget", "1.2.0"⟩ ⟨"widget", "2.0.0"⟩ hd rfl with
  | ⟨event, h1, _, h3, h4, _⟩ => ⟨hd, event, h1, h3, h4 _ rfl⟩

/-- C7, as stated, fails: the registry answers with a release whose tag is the
empty string, and `GetLatest` returns a `ProjectVersion` with an empty version
instead of an error. -/
theorem getLatest_empty_tag_counterexample :
    sampleGithub.GetLatestRelease "gliderlabs" "blank" = .ok ⟨some ""⟩
      ∧ ((sampleTracker keenOk).GetLatest ⟨"blank", "1.0.0"⟩).2 = .ok ⟨"blank", ""⟩ :=
  ⟨rfl, rfl⟩

/-- C7, amended. When the registry call succeeds: a release with an absent tag
makes `GetLatest` return the error "missing TagName"; a release with a tag, empty
or not, makes it return the input project with that tag; so the returned
version is empty exactly when the registry's tag is the empty string. -/
theorem getLatest_tag (t : UsageTracker) (pv : usage.ProjectVersion)
    (release : github.RepositoryRelease)
    (hup : t.githubClient.GetLatestRelease t.githubProject pv.Project = .ok release) :
    (release.TagName = none → (t.GetLatest pv).2 = .error "missing TagName")
      ∧ (∀ tag, release.TagName = some tag → (t.GetLatest pv).2 = .ok ⟨pv.Project, tag⟩)
      ∧ (∀ latest, (t.GetLatest pv).2 = .ok latest →
          (latest.Version = "" ↔ release.TagName = some "")) := by
  refine ⟨?_, ?_, ?_⟩
  · intro htag
    simp [UsageTracker.GetLatest, hup, htag]
  · intro tag htag
    exact getLatest_ok_of_tag t pv release tag hup htag
  · intro latest hl
    cases htag : release.TagName with
    | none =>
      simp [UsageTracker.GetLatest, hup, htag] at hl
    | some tag =>
      rw [getLatest_ok_of_tag t pv release tag hup htag] at hl
      cases hl
      simp

/-- Witness for C7 (amended): a release without tag, and a release with tag. -/
theorem getLatest_tag_witness :
    sampleGithub.GetLatestRelease "gliderlabs" "untagged" = .ok ⟨none⟩
      ∧ ((sampleTracker keenOk).GetLatest ⟨"untagged", "1.0.0"⟩).2 = .error "missing TagName" :=
  ⟨rfl, (getLatest_tag (sampleTracker keenOk) ⟨"untagged", "1.0.0"⟩ ⟨none⟩ rfl).1 rfl⟩

/-- The order of the collaborator calls on every run that returns: the codec
first, `WriteMsg` last and once, and on the success path the registry call, then
`RemoteAddr`, then the one `AddEvent` call, before `WriteMsg`. -/
theorem serveDNS_call_order (c : Codec) (ipString : net.IP → String)
    (t : UsageTracker) (w : ResponseWriter) (r : dns.Msg)
    (hret : (t.ServeDNS c ipString w r).panic = none) :
    ∃ q, (t.ServeDNS c ipString w r).collaboratorCalls
          = [.ParseV1 q, .RemoteAddr, .WriteMsg (negativeReply r)]
      ∨ (∃ repo, (t.ServeDNS c ipString w r).collaboratorCalls
          = [.ParseV1 q, .GetLatestRelease t.githubProject repo, .WriteMsg (negativeReply r)])
      ∨ (∃ repo event latest, (t.ServeDNS c ipString w r).collaboratorCalls
          = [.ParseV1 q, .GetLatestRelease t.githubProject repo, .RemoteAddr,
              .AddEvent "usage" event, .WriteMsg (positiveReply c r latest)]) := by
  cases hq : r.Question with
  | nil =>
    rw [serveDNS_no_question c ipString t w r hq] at hret
    cases hret
  | cons q rest =>
    refine ⟨q.Name, ?_⟩
    cases hp : c.ParseV1 q.Name with
    | error err =>
      cases ha : w.RemoteAddr with
      | udp a =>
        left
        rw [serveDNS_decode_error_udp c ipString t w r q rest err a hq hp ha,
          response_collaboratorCalls]
        rfl
      | other network text =>
        rw [serveDNS_decode_error_other c ipString t w r q rest err network text hq hp ha]
          at hret
        cases hret
    | ok pv =>
      cases hr : (t.GetLatest pv).2 with
      | error err =>
        right; left
        refine ⟨pv.Project, ?_⟩
        rw [serveDNS_resolve_error c ipString t w r q rest pv err hq hp hr,
          response_collaboratorCalls]
        rfl
      | ok latest =>
        right; right
        refine ⟨pv.Project, eventFor ipString w pv, latest, ?_⟩
        rw [serveDNS_success c ipString t w r q rest pv latest hq hp hr,
          response_collaboratorCalls]
        cases t.keenClient.AddEvent "usage" (eventFor ipString w pv) <;> rfl

/-- The runs that panic are exactly those on a query without question, and
those where decoding fails while the remote address is not a UDP address. -/
theorem serveDNS_panic_iff (c : Codec) (ipString : net.IP → String)
    (t : UsageTracker) (w : ResponseWriter) (r : dns.Msg) :
    (t.ServeDNS c ipString w r).panic ≠ none ↔
      (r.Question = [] ∨ (decodeFails c r ∧ ∃ network text, w.RemoteAddr = .other network text)) := by
  cases hq : r.Question with
  | nil =>
    rw [serveDNS_no_question c ipString t w r hq]
    simp
  | cons q rest =>
    cases hp : c.ParseV1 q.Name with
    | error err =>
      cases ha : w.RemoteAddr with
      | udp a =>
        rw [serveDNS_decode_error_udp c ipString t w r q rest err a hq hp ha, response_panic]
        simp
      | other network text =>
        rw [serveDNS_decode_error_other c ipString t w r q rest err network text hq hp ha]
        simp only [ne_eq, reduceCtorEq, not_false_eq_true, false_or, true_iff]
        exact ⟨⟨q, rest, err, hq, hp⟩, network, text, rfl⟩
    | ok pv =>
      have hnd : ¬ decodeFails c r := by
        rintro ⟨q2, rest2, e, hq2, hp2⟩
        rw [hq] at hq2
        cases hq2
        rw [hp] at hp2
        cases hp2
      cases hr : (t.GetLatest pv).2 with
      | error err =>
        rw [serveDNS_resolve_error c ipString t w r q rest pv err hq hp hr, response_panic]
        simp [hnd]
      | ok latest =>
        rw [serveDNS_success c ipString t w r q rest pv latest hq hp hr, response_panic]
        simp [hnd]

/-- C8, evaluated at the failing inputs: on a query with an empty question
section the handler panics on `r.Question[0]`, and on an undecodable name from a
client whose address is not a UDP address it panics on the type assertion of
the log statement; the same client on the success path, where the assertion is
checked, makes no panic. -/
theorem serveDNS_panics :
    ((sampleTracker keenOk).ServeDNS sampleCodec sampleIPString udpWriter emptyQuery).panic
        = some .indexOutOfRange
      ∧ ((sampleTracker keenOk).ServeDNS sampleCodec sampleIPString tcpWriter
          (query "nonsense.")).panic = some .interfaceConversion
      ∧ ((sampleTracker keenOk).ServeDNS sampleCodec sampleIPString tcpWriter
          (query "1-2-0.widget.usage-v1.")).panic = none :=
  ⟨rfl, rfl, rfl⟩

/-- C9, evaluated at the failing inputs: on a query with an empty question
section no collaborator is called at all, and on an undecodable name from a
client whose address is not a UDP address the calls are `ParseV1` and
`RemoteAddr`; in both runs `WriteMsg` is not called. -/
theorem serveDNS_no_write_on_panic :
    ((sampleTracker keenOk).ServeDNS sampleCodec sampleIPString udpWriter
        emptyQuery).collaboratorCalls = []
      ∧ ((sampleTracker keenOk).ServeDNS sampleCodec sampleIPString udpWriter
          emptyQuery).written = []
      ∧ ((sampleTracker keenOk).ServeDNS sampleCodec sampleIPString tcpWriter
          (query "nonsense.")).collaboratorCalls = [.ParseV1 "nonsense.", .RemoteAddr]
      ∧ ((sampleTracker keenOk).ServeDNS sampleCodec sampleIPString tcpWriter
          (query "nonsense.")).written = [] :=
  ⟨rfl, rfl, rfl, rfl⟩

/-- C10. Start-up configuration: `main` aborts before serving exactly when one of
KEEN_PROJECT, KEEN_WRITE_KEY, GITHUB_PROJECT is empty or unset; otherwise its
first effect is `dns.ListenAndServe` on the UDP address joined from HOST
(default 0.0.0.0) and PORT (default 53), with a tracker whose GitHub client is
anonymous when GITHUB_ACCESS_TOKEN is empty. -/
theorem main_startup (p : Process) :
    (abortsBeforeServing (main p) ↔ missingRequired p)
      ∧ (¬ missingRequired p → ∃ rest, main p =
          .ListenAndServe
            (p.JoinHostPort (if p.Getenv "HOST" = "" then "0.0.0.0" else p.Getenv "HOST")
              (if p.Getenv "PORT" = "" then "53" else p.Getenv "PORT"))
            "udp"
            ⟨p.Getenv "KEEN_WRITE_KEY", p.Getenv "KEEN_PROJECT", p.keenFlushInterval,
              if p.Getenv "GITHUB_ACCESS_TOKEN" = "" then none
              else some (p.Getenv "GITHUB_ACCESS_TOKEN"),
              p.Getenv "GITHUB_PROJECT"⟩ :: rest) := by
  by_cases hm : missingRequired p
  · refine ⟨⟨fun _ => hm, fun _ =>
      ⟨"Please set KEEN_PROJECT, KEEN_WRITE_KEY, and GITHUB_PROJECT", ?_⟩⟩, fun h => absurd hm h⟩
    unfold missingRequired at hm
    simp only [main, if_pos hm]
  · have hm2 := hm
    unfold missingRequired at hm2
    refine ⟨⟨?_, fun h => absurd h hm⟩, fun _ => ?_⟩
    · rintro ⟨msg, h⟩
      simp only [main, if_neg hm2] at h
      split at h <;> simp at h
    · simp only [main, if_neg hm2, ne_eq, ite_not]
      split
      · exact ⟨[MainCall.Fatal _], rfl⟩
      · exact ⟨[], rfl⟩

/-- Witness for C10: the three required variables set, nothing else: the server
is started on 0.0.0.0:53 with anonymous registry access. -/
theorem main_startup_witness :
    ¬ missingRequired
        (sampleProcess [("KEEN_PROJECT", "a"), ("KEEN_WRITE_KEY", "b"), ("GITHUB_PROJECT", "c")])
      ∧ ∃ rest,
        main (sampleProcess [("KEEN_PROJECT", "a"), ("KEEN_WRITE_KEY", "b"),
            ("GITHUB_PROJECT", "c")])
          = .ListenAndServe "0.0.0.0:53" "udp" ⟨"b", "a", 1000000000, none, "c"⟩ :: rest :=
  have hm : ¬ missingRequired
      (sampleProcess [("KEEN_PROJECT", "a"), ("KEEN_WRITE_KEY", "b"), ("GITHUB_PROJECT", "c")]) := by
    unfold missingRequired
    decide
  ⟨hm, (main_startup _).2 hm⟩

end Registrator
